import Mathlib

/-
Verification of the wood comparison engine (src/wood/comparison.py,
src/wood/entities.py, src/wood/util.py).

The entity snapshot model and the comparison tree are embedded as mutual
inductive types; the traversal operations (`new`, `modified`, `deleted`,
`invalidations`) and the classification properties (`is_new`, `is_deleted`,
`is_modified`, `is_empty`, `invalidate`) are translated clause by clause
from the Python methods. Python dicts of children are modelled as
association lists in insertion order; the set-ordered key union of
`util.zip_dict` is determinized as "left keys in order, then right-only
keys in order", which fixes an iteration order without changing the
yielded multiset of pairs.
-/

namespace Wood

/-- A file entity: `wood.entities.File` — name, size, md5 fingerprint. -/
structure FileE where
  name : String
  size : Nat
  md5 : String
deriving DecidableEq, Repr

mutual

/-- An entity snapshot node: `wood.entities.Entity` — either a `File` or a
`Directory(name, children)`.  The nameless `Root` is a directory whose name
is the empty string. -/
inductive Entity where
  | file : FileE → Entity
  | dir : String → EList → Entity

/-- A directory's children: an association list of (name, entity) pairs,
modelling the Python `Dict[str, Entity]` in insertion order. -/
inductive EList where
  | nil : EList
  | cons : String → Entity → EList → EList

end

mutual

/-- A comparison node: `wood.comparison.Comparison` and its four variants.
`fileCmp` is `FileComparison` (left/right optional files), `dirCmp` is
`DirectoryComparison` (kept data: each side's presence and name, plus the
reconciled children), `fileDirCmp` is `FileDirectoryComparison` (left file,
right directory name and entity children, plus synthetic comparison
children), and `dirFileCmp` is `DirectoryFileComparison` (left directory
name, right file, plus synthetic comparison children).  For the directory
sides only the fields that the methods read after construction are kept:
the name (and, for `fileDirCmp`, the right directory's entity children,
read by `is_empty`). -/
inductive Comparison where
  | fileCmp : Option FileE → Option FileE → Comparison
  | dirCmp : Option String → Option String → CList → Comparison
  | fileDirCmp : FileE → String → EList → CList → Comparison
  | dirFileCmp : String → FileE → CList → Comparison

/-- A comparison's children: an association list of (name, comparison)
pairs, modelling the Python `Dict[str, Comparison]` in insertion order. -/
inductive CList where
  | nil : CList
  | cons : String → Comparison → CList → CList

end

/-- Truth of `not children` on an entity children dict. -/
def EList.isEmpty : EList → Bool
  | .nil => true
  | .cons _ _ _ => false

/-- Truth of `not children` on a comparison children dict. -/
def CList.isEmpty : CList → Bool
  | .nil => true
  | .cons _ _ _ => false

/-- View a comparison children dict as a standard list of pairs. -/
def CList.toList : CList → List (String × Comparison)
  | .nil => []
  | .cons k c t => (k, c) :: CList.toList t

/-- Whether the Python object's `left` attribute is `None`.  For the
replacement variants the constructor takes non-optional entities, so the
left side is always present. -/
def leftAbsent : Comparison → Bool
  | .fileCmp l _ => l.isNone
  | .dirCmp l _ _ => l.isNone
  | .fileDirCmp _ _ _ _ => false
  | .dirFileCmp _ _ _ => false

/-- Whether the Python object's `right` attribute is `None`. -/
def rightAbsent : Comparison → Bool
  | .fileCmp _ r => r.isNone
  | .dirCmp _ r _ => r.isNone
  | .fileDirCmp _ _ _ _ => false
  | .dirFileCmp _ _ _ => false

/-- Whether the node is one of the two `ReplacementComparison` variants. -/
def isReplacement : Comparison → Bool
  | .fileCmp _ _ => false
  | .dirCmp _ _ _ => false
  | .fileDirCmp _ _ _ _ => true
  | .dirFileCmp _ _ _ => true

/-- `Comparison.is_new` (comparison.py:52-59): `left is None`; overridden to
`True` by `ReplacementComparison` (comparison.py:375-377). -/
def is_new : Comparison → Bool
  | .fileCmp l _ => l.isNone
  | .dirCmp l _ _ => l.isNone
  | .fileDirCmp _ _ _ _ => true
  | .dirFileCmp _ _ _ => true

/-- `Comparison.is_deleted` (comparison.py:107-114): `right is None`;
overridden to `True` by `ReplacementComparison` (comparison.py:383-385). -/
def is_deleted : Comparison → Bool
  | .fileCmp _ r => r.isNone
  | .dirCmp _ r _ => r.isNone
  | .fileDirCmp _ _ _ _ => true
  | .dirFileCmp _ _ _ => true

/-- `is_modified`: `FileComparison.is_modified` (comparison.py:223-236) is
false when either side is absent, else compares fingerprints;
`DirectoryComparison.is_modified` (comparison.py:287-291) and
`ReplacementComparison.is_modified` (comparison.py:379-381) are false. -/
def is_modified : Comparison → Bool
  | .fileCmp (some f) (some g) => f.md5 != g.md5
  | .fileCmp _ _ => false
  | .dirCmp _ _ _ => false
  | .fileDirCmp _ _ _ _ => false
  | .dirFileCmp _ _ _ => false

/-- `is_empty`: `FileComparison.is_empty` is false (comparison.py:218-221);
`DirectoryComparison.is_empty` is `not self.children` (comparison.py:259-261);
`FileDirectoryComparison.is_empty` is `not self.right.children`
(comparison.py:408-410); `DirectoryFileComparison.is_empty` is false
(comparison.py:442-444). -/
def is_empty : Comparison → Bool
  | .fileCmp _ _ => false
  | .dirCmp _ _ cs => cs.isEmpty
  | .fileDirCmp _ _ rcs _ => rcs.isEmpty
  | .dirFileCmp _ _ _ => false

mutual

/-- `invalidate`: `FileComparison.invalidate` is
`is_modified or is_deleted` (comparison.py:238-240);
`DirectoryComparison.invalidate` is `all(child.invalidate for child in
children)` (comparison.py:335-344); `ReplacementComparison.invalidate` is
`True` (comparison.py:387-389). -/
def invalidate : Comparison → Bool
  | .fileCmp l r => is_modified (.fileCmp l r) || is_deleted (.fileCmp l r)
  | .dirCmp _ _ cs => invalidateAll cs
  | .fileDirCmp _ _ _ _ => true
  | .dirFileCmp _ _ _ => true

/-- Conjunction of `invalidate` over a comparison children dict —
`all([child.invalidate for child in self.children.values()])`. -/
def invalidateAll : CList → Bool
  | .nil => true
  | .cons _ c t => invalidate c && invalidateAll t

end

/-! Path rendering.  The Python code builds paths with `pathlib.PurePath`:
joining drops empty segments, and the empty path renders as `"."`.  Paths
are modelled as lists of non-empty segments. -/

/-- `base / seg` on `pathlib.PurePath`: empty segments are dropped. -/
def joinPath (base : List String) (seg : String) : List String :=
  if seg = "" then base else base ++ [seg]

/-- `str()` of a `PurePath`: segments joined with `/`; the empty path
renders as `"."`. -/
def renderPath : List String → String
  | [] => "."
  | p => String.intercalate "/" p

/-- `os.path.join(a, b)` for a relative `b` and an `a` that does not end in
a separator: the empty `a` contributes no prefix. -/
def osJoin (a b : String) : String :=
  if a = "" then b else a ++ "/" ++ b

/-- The Python expression `self.right.name if self.is_new else
self.left.name` of `DirectoryComparison.invalidations` (comparison.py:347),
on the kept optional names.  Both sides absent cannot arise from
construction; that junk case returns the empty string. -/
def dirOwnName : Option String → Option String → String
  | none, some m => m
  | none, none => ""
  | some n, _ => n

mutual

/-- `new(base, include_intermediates)`: base implementation
(comparison.py:61-76) yields `base / right.name` when `is_new` — used by
`FileComparison` and (via `is_new = True`) `DirectoryFileComparison`;
`DirectoryComparison.new` (comparison.py:263-285) yields nothing when
deleted, yields its own path plus `/` when new with no children or with
`include_intermediates`, then recurses; `FileDirectoryComparison.new`
(comparison.py:412-429) is the same without the `is_new` guard. -/
def new : Comparison → List String → Bool → List String
  | .fileCmp none (some g), base, _ => [renderPath (joinPath base g.name)]
  | .fileCmp _ _, _, _ => []
  | .dirCmp _ none _, _, _ => []
  | .dirCmp l (some rn) cs, base, ii =>
      (if l.isNone && (cs.isEmpty || ii)
        then [renderPath (joinPath base rn) ++ "/"] else [])
        ++ newAll cs (joinPath base rn) ii
  | .fileDirCmp _ rn _ cs, base, ii =>
      (if cs.isEmpty || ii
        then [renderPath (joinPath base rn) ++ "/"] else [])
        ++ newAll cs (joinPath base rn) ii
  | .dirFileCmp _ f _, base, _ => [renderPath (joinPath base f.name)]

/-- Concatenation of the children's `new` output, in child order. -/
def newAll : CList → List String → Bool → List String
  | .nil, _, _ => []
  | .cons _ c t, us, ii => new c us ii ++ newAll t us ii

end

mutual

/-- `modified(base)`: base implementation (comparison.py:91-105) yields
`base / right.name` when `is_modified` — only `FileComparison` can be
modified; `DirectoryComparison.modified` (comparison.py:293-300) recurses
into children when not deleted; the replacement variants inherit the base
implementation with `is_modified = False`. -/
def modified : Comparison → List String → List String
  | .fileCmp (some f) (some g), base =>
      if f.md5 != g.md5 then [renderPath (joinPath base g.name)] else []
  | .fileCmp _ _, _ => []
  | .dirCmp _ none _, _ => []
  | .dirCmp _ (some rn) cs, base => modifiedAll cs (joinPath base rn)
  | .fileDirCmp _ _ _ _, _ => []
  | .dirFileCmp _ _ _, _ => []

/-- Concatenation of the children's `modified` output, in child order. -/
def modifiedAll : CList → List String → List String
  | .nil, _ => []
  | .cons _ c t, us => modified c us ++ modifiedAll t us

end

mutual

/-- `deleted(base, include_children, include_directories)`: base
implementation (comparison.py:116-133) yields `base / left.name` when
`is_deleted` — used by `FileComparison` and (via `is_deleted = True`)
`FileDirectoryComparison`; `DirectoryComparison.deleted`
(comparison.py:302-316) yields nothing when new, its own path plus `/`
when deleted and `include_directories`, and recurses when not deleted or
`include_children`; `DirectoryFileComparison.deleted`
(comparison.py:446-457) is the same with `is_new`/`is_deleted` fixed to
`True`. -/
def deleted : Comparison → List String → Bool → Bool → List String
  | .fileCmp (some f) none, base, _, _ => [renderPath (joinPath base f.name)]
  | .fileCmp _ _, _, _, _ => []
  | .dirCmp none _ _, _, _, _ => []
  | .dirCmp (some ln) r cs, base, ic, idir =>
      (if r.isNone && idir
        then [renderPath (joinPath base ln) ++ "/"] else [])
        ++ (if !r.isNone || ic then deletedAll cs (joinPath base ln) ic idir
            else [])
  | .fileDirCmp f _ _ _, base, _, _ => [renderPath (joinPath base f.name)]
  | .dirFileCmp ln _ cs, base, ic, idir =>
      (if idir then [renderPath (joinPath base ln) ++ "/"] else [])
        ++ (if ic then deletedAll cs (joinPath base ln) ic idir else [])

/-- Concatenation of the children's `deleted` output, in child order. -/
def deletedAll : CList → List String → Bool → Bool → List String
  | .nil, _, _, _ => []
  | .cons _ c t, us, ic, idir =>
      deleted c us ic idir ++ deletedAll t us ic idir

end

mutual

/-- `invalidations()`: base implementation (comparison.py:145-154) yields
`left.name` when `invalidate` — used by `FileComparison` (where
`invalidate` implies the left side is present on constructible nodes) and
by `FileDirectoryComparison` (`invalidate = True`);
`DirectoryComparison.invalidations` (comparison.py:346-364) yields the
bare name (unless empty) and then `os.path.join(name, '*')` when
`invalidate`, else the non-empty children's invalidations prefixed with
`os.path.join(name, ·)`; `DirectoryFileComparison.invalidations`
(comparison.py:459-461) yields `left.name + '/*'`. -/
def invalidations : Comparison → List String
  | .fileCmp (some f) r =>
      if invalidate (.fileCmp (some f) r) then [f.name] else []
  | .fileCmp none _ => []
  | .dirCmp l r cs =>
      if invalidate (.dirCmp l r cs) then
        (if dirOwnName l r = "" then [] else [dirOwnName l r])
          ++ [osJoin (dirOwnName l r) "*"]
      else
        (invalidationsAll cs).map (osJoin (dirOwnName l r))
  | .fileDirCmp f _ _ _ => [f.name]
  | .dirFileCmp ln _ _ => [ln ++ "/*"]

/-- Concatenation of the children's `invalidations` output in child order,
skipping children whose `is_empty` is true (comparison.py:359-362). -/
def invalidationsAll : CList → List String
  | .nil => []
  | .cons _ c t =>
      (if is_empty c then [] else invalidations c) ++ invalidationsAll t

end

/-! Construction: `util.zip_dict` and `Comparison.compare`. -/

/-- `d.get(k)` on a children dict. -/
def dictGet (k : String) : EList → Option Entity
  | .nil => none
  | .cons k2 v t => if k2 = k then some v else dictGet k t

/-- Remove the first binding of `k` from a children dict.  Used only to
phrase `zip_dict` structurally: for the duplicate-free dicts Python
guarantees, consuming each matched key is equivalent to iterating the key
union. -/
def dictErase (k : String) : EList → EList
  | .nil => .nil
  | .cons k2 v t => if k2 = k then t else .cons k2 v (dictErase k t)

/-- The right-only tail of `zip_dict`: every remaining key of `b` paired as
`(None, b[k])`. -/
def zipRight : EList → List (String × (Option Entity × Option Entity))
  | .nil => []
  | .cons k v t => (k, (none, some v)) :: zipRight t

/-- `util.zip_dict(a, b)` (util.py:11-22): for every key in the union of
the two key sets, the pair `(a.get(key), b.get(key))`.  The Python set
union has no fixed order; this determinization lists `a`'s keys in order,
then `b`'s remaining keys in order, consuming each matched binding of `b`
as it goes. -/
def zip_dict : EList → EList → List (String × (Option Entity × Option Entity))
  | .nil, b => zipRight b
  | .cons k v t, b => (k, (some v, dictGet k b)) :: zip_dict t (dictErase k b)

/-! Size measures used to justify the termination of `Comparison.compare`. -/

mutual

/-- Node count of an entity tree (each node weighs at least one). -/
def esize : Entity → Nat
  | .file _ => 1
  | .dir _ cs => 1 + csize cs

/-- Total weight of a children dict: one per binding plus the entities. -/
def csize : EList → Nat
  | .nil => 0
  | .cons _ e t => 1 + esize e + csize t

end

/-- Weight of an optional entity. -/
def osize : Option Entity → Nat
  | none => 0
  | some e => esize e

/-- Total entity weight of a `zip_dict` result. -/
def psize : List (String × (Option Entity × Option Entity)) → Nat
  | [] => 0
  | (_, (l, r)) :: t => osize l + osize r + psize t

theorem psize_zipRight : ∀ b : EList,
    psize (zipRight b) + (zipRight b).length = csize b
  | .nil => rfl
  | .cons k v t => by
      have ih := psize_zipRight t
      simp only [zipRight, psize, osize, csize, List.length_cons]
      omega

theorem dictGet_some_size : ∀ (k : String) (b : EList) (e : Entity),
    dictGet k b = some e → 1 + esize e + csize (dictErase k b) = csize b
  | k, .nil, e, h => by simp [dictGet] at h
  | k, .cons k2 v t, e, h => by
      by_cases hk : k2 = k
      · rw [dictGet, if_pos hk] at h
        rw [dictErase, if_pos hk]
        cases h
        rfl
      · rw [dictGet, if_neg hk] at h
        have ih := dictGet_some_size k t e h
        rw [dictErase, if_neg hk]
        simp only [csize]
        omega

theorem dictGet_none_erase : ∀ (k : String) (b : EList),
    dictGet k b = none → dictErase k b = b
  | k, .nil, _ => rfl
  | k, .cons k2 v t, h => by
      by_cases hk : k2 = k
      · rw [dictGet, if_pos hk] at h
        exact absurd h (by simp)
      · rw [dictGet, if_neg hk] at h
        rw [dictErase, if_neg hk, dictGet_none_erase k t h]

theorem psize_zip_dict : ∀ a b : EList,
    psize (zip_dict a b) + (zip_dict a b).length ≤ csize a + csize b
  | .nil, b => by
      rw [zip_dict]
      have := psize_zipRight b
      simp only [csize]
      omega
  | .cons k v t, b => by
      rw [zip_dict]
      simp only [psize, List.length_cons, csize, osize]
      cases h : dictGet k b with
      | none =>
          have ih := psize_zip_dict t b
          rw [dictGet_none_erase k b h] at *
          simp only [osize]
          omega
      | some e =>
          have hs := dictGet_some_size k b e h
          have ih := psize_zip_dict t (dictErase k b)
          simp only [osize]
          omega

mutual

/-- `Comparison.compare(left, right)` (comparison.py:156-189): dispatch on
the kinds of the two sides; `None` models the `TypeError` raised when both
sides are absent.  `DirectoryComparison.__init__` (comparison.py:318-327)
builds children by comparing each `zip_dict` pair;
`FileDirectoryComparison.__init__` (comparison.py:431-434) compares each
right child against an absent left; `DirectoryFileComparison.__init__`
(comparison.py:463-466) compares each left child against an absent
right. -/
def Comparison.compare : Option Entity → Option Entity → Option Comparison
  | some (.file f), some (.dir n cs) =>
      some (.fileDirCmp f n cs (compareNewList cs))
  | some (.dir n cs), some (.file f) =>
      some (.dirFileCmp n f (compareDelList cs))
  | some (.file f), some (.file g) => some (.fileCmp (some f) (some g))
  | some (.file f), none => some (.fileCmp (some f) none)
  | none, some (.file g) => some (.fileCmp none (some g))
  | some (.dir n cs), some (.dir m ds) =>
      some (.dirCmp (some n) (some m) (comparePairs (zip_dict cs ds)))
  | some (.dir n cs), none =>
      some (.dirCmp (some n) none (comparePairs (zip_dict cs .nil)))
  | none, some (.dir m ds) =>
      some (.dirCmp none (some m) (comparePairs (zip_dict .nil ds)))
  | none, none => none
termination_by l r => osize l + osize r
decreasing_by
  all_goals simp only [osize, esize]
  · omega
  · omega
  · have := psize_zip_dict cs ds; omega
  · have := psize_zip_dict cs .nil; simp only [csize] at this; omega
  · have := psize_zip_dict .nil ds; simp only [csize] at this; omega

/-- The children dict of a `DirectoryComparison`: each `zip_dict` pair
compared recursively.  The `none` result of a recursive call (both sides
absent) cannot arise — `zip_dict` pairs always have a present side
(theorem `zip_dict_mem_isSome`) — and is skipped. -/
def comparePairs : List (String × (Option Entity × Option Entity)) → CList
  | [] => .nil
  | (k, (l, r)) :: t =>
      match Comparison.compare l r with
      | some c => .cons k c (comparePairs t)
      | none => comparePairs t
termination_by ps => psize ps + ps.length
decreasing_by
  all_goals simp only [psize, List.length_cons]
  · omega
  · omega

/-- The synthetic children dict of a `FileDirectoryComparison`: every right
child compared against an absent left side. -/
def compareNewList : EList → CList
  | .nil => .nil
  | .cons k e t =>
      match Comparison.compare none (some e) with
      | some c => .cons k c (compareNewList t)
      | none => compareNewList t
termination_by cs => csize cs
decreasing_by
  all_goals simp only [osize, csize]
  · omega
  · omega

/-- The synthetic children dict of a `DirectoryFileComparison`: every left
child compared against an absent right side. -/
def compareDelList : EList → CList
  | .nil => .nil
  | .cons k e t =>
      match Comparison.compare (some e) none with
      | some c => .cons k c (compareDelList t)
      | none => compareDelList t
termination_by cs => csize cs
decreasing_by
  all_goals simp only [osize, csize]
  · omega
  · omega

end

/-! Supporting lemmas. -/

/-- Every pair yielded by the right-only tail of `zip_dict` has a present
right side. -/
theorem zipRight_mem_isSome : ∀ (b : EList) (kp : String × (Option Entity × Option Entity)),
    kp ∈ zipRight b → kp.2.2.isSome
  | .nil, kp, h => by simp [zipRight] at h
  | .cons k v t, kp, h => by
      rw [zipRight] at h
      rcases List.mem_cons.mp h with h1 | h2
      · subst h1; rfl
      · exact zipRight_mem_isSome t kp h2

/-- Every pair yielded by `zip_dict` has at least one present side, so the
recursive `compare` calls of `DirectoryComparison.__init__` never hit the
both-absent error. -/
theorem zip_dict_mem_isSome : ∀ (a b : EList) (kp : String × (Option Entity × Option Entity)),
    kp ∈ zip_dict a b → kp.2.1.isSome ∨ kp.2.2.isSome
  | .nil, b, kp, h => by
      rw [zip_dict] at h
      exact Or.inr (zipRight_mem_isSome b kp h)
  | .cons k v t, b, kp, h => by
      rw [zip_dict] at h
      rcases List.mem_cons.mp h with h1 | h2
      · subst h1; left; rfl
      · exact zip_dict_mem_isSome t (dictErase k b) kp h2

/-- The `all(...)` reduction over comparison children, as a `List.all`. -/
theorem invalidateAll_eq_all : ∀ cs : CList,
    invalidateAll cs = (cs.toList.all fun p => invalidate p.2)
  | .nil => rfl
  | .cons k c t => by
      rw [invalidateAll, CList.toList, List.all_cons, invalidateAll_eq_all t]

/-- The chained child invalidations, as a filter-map-flatten over the
children list. -/
theorem invalidationsAll_eq : ∀ cs : CList,
    invalidationsAll cs =
      ((cs.toList.filter fun p => !is_empty p.2).map
        fun p => invalidations p.2).flatten
  | .nil => rfl
  | .cons k c t => by
      rw [invalidationsAll, CList.toList, invalidationsAll_eq t]
      by_cases h : is_empty c
      · simp [h]
      · simp [h]

/-- The concatenated children `new` output, as a map-flatten over the
children list. -/
theorem newAll_eq : ∀ (cs : CList) (us : List String) (ii : Bool),
    newAll cs us ii = (cs.toList.map fun p => new p.2 us ii).flatten
  | .nil, _, _ => rfl
  | .cons k c t, us, ii => by
      rw [newAll, CList.toList, List.map_cons, List.flatten_cons, newAll_eq t]

/-! Concrete scenario trees. -/

/-- The left tree of the "directory partially changed" scenario: a nameless
root holding `css/styles.css` (fingerprint `abc`) and `img/george.jpg`
(fingerprint `abc`). -/
def c1Left : Entity :=
  .dir ""
    (.cons "css" (.dir "css"
        (.cons "styles.css" (.file ⟨"styles.css", 1, "abc"⟩) .nil))
    (.cons "img" (.dir "img"
        (.cons "george.jpg" (.file ⟨"george.jpg", 12345, "abc"⟩) .nil)) .nil))

/-- The right tree of the "directory partially changed" scenario: identical
to `c1Left` except `css/styles.css` has fingerprint `abcd`. -/
def c1Right : Entity :=
  .dir ""
    (.cons "css" (.dir "css"
        (.cons "styles.css" (.file ⟨"styles.css", 1, "abcd"⟩) .nil))
    (.cons "img" (.dir "img"
        (.cons "george.jpg" (.file ⟨"george.jpg", 12345, "abc"⟩) .nil)) .nil))

/-- The left tree of the mixed add/delete/type-swap scenario
(test_comparison.py:32-46): root with `d1{f1,f2}`, `d2{f3,f4}`, `d3{f5}`,
`f6`, `f7`. -/
def c3Left : Entity :=
  .dir ""
    (.cons "d1" (.dir "d1" (.cons "f1" (.file ⟨"f1", 1, ""⟩)
        (.cons "f2" (.file ⟨"f2", 1, ""⟩) .nil)))
    (.cons "d2" (.dir "d2" (.cons "f3" (.file ⟨"f3", 1, ""⟩)
        (.cons "f4" (.file ⟨"f4", 1, ""⟩) .nil)))
    (.cons "d3" (.dir "d3" (.cons "f5" (.file ⟨"f5", 1, ""⟩) .nil))
    (.cons "f6" (.file ⟨"f6", 1, ""⟩)
    (.cons "f7" (.file ⟨"f7", 1, ""⟩) .nil)))))

/-- The right tree of the mixed add/delete/type-swap scenario
(test_comparison.py:47-66): `d1{f2,f9,d4{}}`, `d3` now a file, `d5{f10,f11}`,
`f6` now a directory holding `f12`, `f7` unchanged. -/
def c3Right : Entity :=
  .dir ""
    (.cons "d1" (.dir "d1" (.cons "f2" (.file ⟨"f2", 1, ""⟩)
        (.cons "f9" (.file ⟨"f9", 1, ""⟩)
        (.cons "d4" (.dir "d4" .nil) .nil))))
    (.cons "d3" (.file ⟨"d3", 1, ""⟩)
    (.cons "d5" (.dir "d5" (.cons "f10" (.file ⟨"f10", 1, ""⟩)
        (.cons "f11" (.file ⟨"f11", 1, ""⟩) .nil)))
    (.cons "f6" (.dir "f6" (.cons "f12" (.file ⟨"f12", 1, ""⟩) .nil))
    (.cons "f7" (.file ⟨"f7", 1, ""⟩) .nil)))))

/-! The claims. -/

/-- C1: on the partially-changed scenario the code's `invalidations()`
yields `["css", "css/*"]` — the bare directory name `css` *and* the
wildcard — not exactly `{"css/*"}` as the claim (and the repository's own
test `test_directory_not_removed`, test_comparison.py:10-29, which expects
only the wildcard entry) states: `DirectoryComparison.invalidations`
emits the bare name before the wildcard whenever `invalidate` holds and
the name is non-empty (comparison.py:354-357). -/
theorem partial_change_invalidations_actual :
    (Comparison.compare (some c1Left) (some c1Right)).map invalidations
      = some ["css", "css/*"] := by
  simp [c1Left, c1Right, Comparison.compare, comparePairs, compareNewList,
    compareDelList, zip_dict, dictGet, dictErase, zipRight, invalidations,
    invalidationsAll, invalidate, invalidateAll, is_modified, is_empty,
    is_deleted, dirOwnName, osJoin, CList.isEmpty, EList.isEmpty]

/-- C2 counterexample: a `FileDirectoryComparison` node (left file `f6`
replaced by right directory `f6`) has `is_new` true although its left
entity is present, and `is_deleted` true although its right entity is
present — refuting "`is_new(c)` iff `c.left` is absent; `is_deleted(c)`
iff `c.right` is absent" for the replacement variants. -/
theorem is_new_left_present_counterexample :
    is_new (.fileDirCmp ⟨"f6", 1, "h"⟩ "f6" .nil .nil) = true
      ∧ leftAbsent (.fileDirCmp ⟨"f6", 1, "h"⟩ "f6" .nil .nil) = false
      ∧ is_deleted (.fileDirCmp ⟨"f6", 1, "h"⟩ "f6" .nil .nil) = true
      ∧ rightAbsent (.fileDirCmp ⟨"f6", 1, "h"⟩ "f6" .nil .nil) = false := by
  decide

/-- C2 amended: for `FileComparison` and `DirectoryComparison` nodes,
`is_new` holds iff the left side is absent and `is_deleted` iff the right
side is absent; the replacement variants (`FileDirectoryComparison`,
`DirectoryFileComparison`) override both to true while holding both
entities. -/
theorem is_new_is_deleted_characterization : ∀ c : Comparison,
    is_new c = (leftAbsent c || isReplacement c)
      ∧ is_deleted c = (rightAbsent c || isReplacement c)
  | .fileCmp l r => by
      simp [is_new, is_deleted, leftAbsent, rightAbsent, isReplacement]
  | .dirCmp l r cs => by
      simp [is_new, is_deleted, leftAbsent, rightAbsent, isReplacement]
  | .fileDirCmp f rn rcs cs => by
      simp [is_new, is_deleted, leftAbsent, rightAbsent, isReplacement]
  | .dirFileCmp ln f cs => by
      simp [is_new, is_deleted, leftAbsent, rightAbsent, isReplacement]

/-- C3: on the mixed add/delete/type-swap scenario, `new()` with default
options yields exactly the set `{d1/f9, d1/d4/, d3, d5/, d5/f10, d5/f11,
f6/, f6/f12}` and `deleted()` with default options yields exactly the set
`{d1/f1, d2/, d2/f3, d2/f4, d3/, d3/f5, f6}` (test_comparison.py:31-73). -/
theorem mixed_change_new_deleted :
    (Comparison.compare (some c3Left) (some c3Right)).map
        (fun c => ((new c [] true).toFinset, (deleted c [] true true).toFinset))
      = some
        ((["d1/f9", "d1/d4/", "d3", "d5/", "d5/f10", "d5/f11", "f6/",
            "f6/f12"] : List String).toFinset,
         (["d1/f1", "d2/", "d2/f3", "d2/f4", "d3/", "d3/f5",
            "f6"] : List String).toFinset) := by
  have : (Comparison.compare (some c3Left) (some c3Right)).map
      (fun c => (new c [] true, deleted c [] true true))
      = some (["d1/f9", "d1/d4/", "d3", "f6/", "f6/f12", "d5/", "d5/f10",
               "d5/f11"],
              ["d1/f1", "d2/", "d2/f3", "d2/f4", "d3/", "d3/f5", "f6"]) := by
    simp [c3Left, c3Right, Comparison.compare, comparePairs, compareNewList,
      compareDelList, zip_dict, dictGet, dictErase, zipRight, new, newAll,
      deleted, deletedAll, joinPath, renderPath, CList.isEmpty,
      EList.isEmpty, String.intercalate]
    decide
  cases h : Comparison.compare (some c3Left) (some c3Right) with
  | none => rw [h] at this; exact absurd this (by simp)
  | some c =>
      rw [h] at this
      rw [Option.map_some'] at this ⊢
      rw [Option.some.injEq, Prod.mk.injEq] at this ⊢
      rw [this.1, this.2]
      exact ⟨by decide, by decide⟩

/-- C4: `compare(a, b)` succeeds for every pair of optional entities with
at least one side present, fails exactly on the both-absent pair, and the
recursive child comparisons built from `zip_dict` pairs never encounter
the both-absent error (every yielded pair has a present side). -/
theorem compare_totality :
    (∀ a b : Option Entity, (a.isSome ∨ b.isSome) →
        (Comparison.compare a b).isSome)
      ∧ Comparison.compare none none = none
      ∧ (∀ (a b : EList) (kp : String × (Option Entity × Option Entity)),
          kp ∈ zip_dict a b → (kp.2.1.isSome ∨ kp.2.2.isSome)) := by
  refine ⟨?_, by simp [Comparison.compare], zip_dict_mem_isSome⟩
  rintro (_ | ⟨_ | _⟩) (_ | ⟨_ | _⟩) h <;> simp_all [Comparison.compare]

/-- Witness for C4: the totality theorem applied at a concrete file-only
pair. -/
theorem compare_totality_witness :
    (Comparison.compare (some (.file ⟨"a", 1, "x"⟩)) none).isSome :=
  compare_totality.1 (some (.file ⟨"a", 1, "x"⟩)) none (Or.inl rfl)

/-- C5: a `DirectoryComparison`'s `invalidate` is the AND-reduction of
`invalidate` over its reconciled children, and over zero children the
reduction is vacuously true. -/
theorem directory_invalidate_all_children : ∀ (l r : Option String) (cs : CList),
    invalidate (.dirCmp l r cs) = (cs.toList.all fun p => invalidate p.2)
      ∧ invalidate (.dirCmp l r .nil) = true := by
  intro l r cs
  exact ⟨invalidateAll_eq_all cs, rfl⟩

/-- C6: a `DirectoryComparison`'s `invalidations()`: with `invalidate`
true it yields the bare rendered name (omitted exactly when the name is
the empty root sentinel) and then the `name/*` wildcard (joined as
`os.path.join`, so a bare `*` at the root), in that order and nothing
else; with `invalidate` false it yields every element of each non-empty
child's `invalidations()` prefixed with `name/` (again via path join, so
unprefixed at the root), skipping children whose `is_empty` is true. -/
theorem directory_invalidations_characterization :
    ∀ (l r : Option String) (cs : CList),
    invalidations (.dirCmp l r cs) =
      if invalidate (.dirCmp l r cs) then
        (if dirOwnName l r = "" then [] else [dirOwnName l r])
          ++ [osJoin (dirOwnName l r) "*"]
      else
        (((cs.toList.filter fun p => !is_empty p.2).map
            fun p => invalidations p.2).flatten).map
          (osJoin (dirOwnName l r)) := by
  intro l r cs
  rw [invalidations, invalidationsAll_eq, invalidate]

/-- C7: a `FileComparison` is modified iff both sides are present with
differing fingerprints, is never empty, and invalidates iff modified or
deleted. -/
theorem file_comparison_properties : ∀ l r : Option FileE,
    (is_modified (.fileCmp l r) = true
        ↔ ∃ f g, l = some f ∧ r = some g ∧ f.md5 ≠ g.md5)
      ∧ is_empty (.fileCmp l r) = false
      ∧ invalidate (.fileCmp l r)
          = (is_modified (.fileCmp l r) || is_deleted (.fileCmp l r)) := by
  intro l r
  refine ⟨?_, rfl, rfl⟩
  cases l <;> cases r <;> simp [is_modified]

/-- C8 counterexample: comparing file `f6` against directory `f6/f12`
yields a `FileDirectoryComparison` whose `new` with
`include_intermediates = false` does *not* yield the node's own path
`f6/` — refuting "always yields the node's own path ... for every value
of include_intermediates" (the guard `not self.children or
include_intermediates` of comparison.py:419 fails). -/
theorem file_directory_new_counterexample :
    (Comparison.compare (some (.file ⟨"f6", 1, ""⟩))
        (some (.dir "f6" (.cons "f12" (.file ⟨"f12", 1, ""⟩) .nil)))).map
        (fun c => (new c [] false, (new c [] false).contains "f6/"))
      = some (["f6/f12"], false) := by
  simp [Comparison.compare, comparePairs, compareNewList, compareDelList,
    zip_dict, dictGet, dictErase, zipRight, new, newAll, joinPath,
    renderPath, CList.isEmpty, EList.isEmpty, String.intercalate]
  decide

/-- C8 amended: a `FileDirectoryComparison`'s `new(base,
include_intermediates)` yields its own path with a trailing separator —
before any child output — exactly when it has no children or
`include_intermediates` is true (with no `is_new` guard, unlike
`DirectoryComparison`), and then yields the concatenation of its
children's `new` outputs. -/
theorem file_directory_new_characterization :
    ∀ (f : FileE) (rn : String) (rcs : EList) (cs : CList)
      (base : List String) (ii : Bool),
    new (.fileDirCmp f rn rcs cs) base ii =
      (if cs.isEmpty || ii
        then [renderPath (joinPath base rn) ++ "/"] else [])
        ++ (cs.toList.map fun p => new p.2 (joinPath base rn) ii).flatten := by
  intro f rn rcs cs base ii
  rw [new, newAll_eq]

/-- C9: a `DirectoryFileComparison`'s `invalidations()` yields exactly the
single wildcard `<left name>/*`, never the bare left name, and its
`invalidate` is always true. -/
theorem directory_file_invalidations_wildcard :
    ∀ (ln : String) (f : FileE) (cs : CList),
    invalidations (.dirFileCmp ln f cs) = [ln ++ "/*"]
      ∧ invalidate (.dirFileCmp ln f cs) = true
      ∧ ln ∉ invalidations (.dirFileCmp ln f cs) := by
  intro ln f cs
  refine ⟨rfl, rfl, ?_⟩
  rw [invalidations]
  intro h
  rcases List.mem_singleton.mp h with h
  have hl := congrArg String.length h
  rw [String.length_append] at hl
  have h2 : ("/*" : String).length = 2 := rfl
  omega

/-- C10: a `FileDirectoryComparison`'s `invalidations()` yields exactly the
bare left file name with no wildcard — the base `Comparison.invalidations`
under the variant's constant-true `invalidate`. -/
theorem file_directory_invalidations_bare_name :
    ∀ (f : FileE) (rn : String) (rcs : EList) (cs : CList),
    invalidations (.fileDirCmp f rn rcs cs) = [f.name]
      ∧ invalidate (.fileDirCmp f rn rcs cs) = true := by
  intro f rn rcs cs
  exact ⟨rfl, rfl⟩

end Wood
